import Mathlib

/-!
Shallow embedding of the Agentic-Code-Generator repository (two Flask apps,
`app.py` and `app_v2.py`, wrapping the CrewAI multi-agent library) and proofs
about its request handlers, pipeline builders and statistics computation.

Python strings are modelled as Lean `String`; Python `str.split()`,
`str.count`, `str.upper()` and the substring operator `in` are embedded at
the character-list level.  JSON response bodies are modelled by an explicit
`JVal` tree so that statements about the presence or absence of fields are
meaningful.  The external pipeline executor (CrewAI `kickoff`) and the
fallible library constructors are modelled as oracles passed to the handlers;
Flask handlers become pure functions from request data and oracle to a trace
recording the response together with which side effects were attempted.
-/

namespace ACG

/-! ### Python string primitives -/

/-- Characters treated as whitespace by Python `str.split()` (ASCII fragment:
space, tab, newline, carriage return, vertical tab, form feed). -/
def isPySpace (c : Char) : Bool :=
  c = ' ' || c = '\t' || c = '\n' || c = '\r' || c = '\x0b' || c = '\x0c'

/-- Accumulator worker for `pySplit`: walks the character list, collecting the
current word reversed in `acc`, emitting a word at each whitespace run. -/
def splitWsAux : List Char → List Char → List (List Char)
  | [], acc => if acc.isEmpty then [] else [acc.reverse]
  | c :: cs, acc =>
    if isPySpace c then
      if acc.isEmpty then splitWsAux cs [] else acc.reverse :: splitWsAux cs []
    else
      splitWsAux cs (c :: acc)

/-- Embedding of Python `s.split()` with no separator argument: the list of
maximal runs of non-whitespace characters of `s`. -/
def pySplit (s : String) : List (List Char) :=
  splitWsAux s.data []

/-- Embedding of Python `s.count(c)` for a single character `c`: the number of
occurrences of `c` in `s`. -/
def pyCountChar (s : String) (c : Char) : Nat :=
  (s.data.filter (fun d => d = c)).length

/-- Embedding of Python `s.upper()` (ASCII fragment, which covers every string
this program applies it to). -/
def pyUpper (s : String) : String :=
  String.mk (s.data.map Char.toUpper)

/-- Boolean test that `needle` is a prefix of `hay`, on character lists. -/
def isPrefixOfChars : List Char → List Char → Bool
  | [], _ => true
  | _ :: _, [] => false
  | a :: as, b :: bs => a = b && isPrefixOfChars as bs

/-- Boolean test that `needle` occurs contiguously inside `hay`, on character
lists. -/
def containsSubChars : List Char → List Char → Bool
  | [], needle => needle.isEmpty
  | c :: rest, needle => isPrefixOfChars needle (c :: rest) || containsSubChars rest needle

/-- Embedding of the Python substring operator `needle in hay`. -/
def pyContainsSub (hay needle : String) : Bool :=
  containsSubChars hay.data needle.data

/-- Python truthiness of an optional string (`os.getenv` result): `None` and
the empty string are falsy, every other string is truthy. -/
def pyTruthy (o : Option String) : Bool :=
  match o with
  | none => false
  | some s => s ≠ ""

/-- Embedding of the Python dict lookup `data.get` with empty-string default,
on a JSON object whose values are
strings: the first binding of `key`, defaulting to the empty string. -/
def pyGetStr (data : List (String × String)) (key : String) : String :=
  match data with
  | [] => ""
  | (k, v) :: rest => if k = key then v else pyGetStr rest key

/-! ### JSON values and HTTP responses -/

/-- JSON values, as produced by Flask `jsonify`: strings, numbers (only
naturals occur in this program), booleans, arrays and objects with ordered
fields. -/
inductive JVal where
  | s (v : String)
  | n (v : Nat)
  | b (v : Bool)
  | arr (vs : List JVal)
  | obj (fields : List (String × JVal))

/-- First binding of `key` in an ordered field list. -/
def jLookup : List (String × JVal) → String → Option JVal
  | [], _ => none
  | (k, v) :: rest, key => if k = key then some v else jLookup rest key

/-- Field access on a JSON value: `some` the field value when the value is an
object carrying the key, `none` otherwise. -/
def JVal.get (j : JVal) (key : String) : Option JVal :=
  match j with
  | .obj fields => jLookup fields key
  | _ => none

/-- An HTTP response: JSON body plus status code (Flask defaults to 200 when
no explicit status is given). -/
structure Resp where
  body : JVal
  status : Nat

/-! ### CrewAI data model (the fragment this repository uses) -/

/-- A CrewAI agent: a role persona.  The `llm` handle is an external
collaborator holding no data relevant to any claim and is not modelled. -/
structure Agent where
  role : String
  goal : String
  backstory : String
  verbose : Bool
  allow_delegation : Bool := true

/-- A CrewAI task (a pipeline stage): description, bound agent, and the
free-text expected-output contract.  The agent slot is optional because
`app_v2.py` binds possibly-`None` module-level agents. -/
structure Task where
  description : String
  agent : Option Agent
  expected_output : String

/-- CrewAI process modes used by this repository. -/
inductive Process where
  | sequential

/-- A CrewAI crew (a pipeline): agent list, ordered task list, process mode,
verbosity. -/
structure Crew where
  agents : List (Option Agent)
  tasks : List Task
  process : Process
  verbose : Bool

namespace App

/-! ### app.py — the code-generation variant

Module-level agent constants (app.py lines 27-97), the crew builder
(lines 99-264) and the route handlers (lines 270-339). -/

/-- app.py lines 27-34. -/
def flowchart_agent : Agent :=
  { role := "Flowchart Generator"
    goal := "Create detailed flowcharts and visual representations of application logic"
    backstory := "You are an expert system analyst who creates clear, comprehensive flowcharts and diagrams to visualize application workflow and logic."
    verbose := true
    allow_delegation := false }

/-- app.py lines 36-43. -/
def choice_provider_agent : Agent :=
  { role := "Technology Choice Provider"
    goal := "Recommend the best technology stack based on requirements"
    backstory := "You are a senior architect who evaluates requirements and recommends optimal technology choices between Streamlit, Flask with HTML/CSS, or pure HTML/CSS solutions."
    verbose := true
    allow_delegation := false }

/-- app.py lines 45-52. -/
def architecture_agent : Agent :=
  { role := "System Architecture Designer"
    goal := "Design comprehensive system architecture based on chosen technology"
    backstory := "You are a system architect who creates detailed technical architecture, including file structure, component relationships, and system design patterns."
    verbose := true
    allow_delegation := false }

/-- app.py lines 54-61. -/
def code_generator_agent : Agent :=
  { role := "Code Generator"
    goal := "Generate complete, functional code based on architecture specifications"
    backstory := "You are an expert full-stack developer who writes clean, efficient, and well-structured code in multiple programming languages and frameworks."
    verbose := true
    allow_delegation := false }

/-- app.py lines 63-70. -/
def design_enhancer_agent : Agent :=
  { role := "Design & Animation Enhancer"
    goal := "Enhance code with modern UI/UX, animations, and advanced features"
    backstory := "You are a creative frontend developer who specializes in modern UI/UX design, CSS animations, and interactive user experiences."
    verbose := true
    allow_delegation := false }

/-- app.py lines 72-79. -/
def error_fixer_agent : Agent :=
  { role := "Code Error Fixer"
    goal := "Identify and fix all errors, bugs, and issues in the code"
    backstory := "You are a debugging expert who systematically identifies and resolves code errors, ensuring clean, bug-free, and optimized code."
    verbose := true
    allow_delegation := false }

/-- app.py lines 81-88. -/
def testing_agent : Agent :=
  { role := "Code Testing Specialist"
    goal := "Test code thoroughly to ensure error-free execution and proper functionality"
    backstory := "You are a QA engineer who creates comprehensive test cases, validates functionality, and ensures code reliability and performance."
    verbose := true
    allow_delegation := false }

/-- app.py lines 90-97. -/
def delivery_agent : Agent :=
  { role := "Code Delivery Specialist"
    goal := "Package and present the final code solution with proper documentation"
    backstory := "You are a technical documentation expert who organizes, formats, and presents code solutions with clear instructions, architecture diagrams, and user guides."
    verbose := true
    allow_delegation := false }

/-- app.py lines 99-264: pure construction of the eight-stage pipeline for one
request.  Each task description reproduces the f-string of the source,
including its internal 8-space indentation. -/
def create_code_generation_crew (project_description requirements : String) : Crew :=
  let flowchart_task : Task :=
    { description := "Create a detailed flowchart for the project: " ++ project_description ++ "\n        \n        Requirements: " ++ requirements ++ "\n        \n        Generate:\n        1. Application workflow diagram\n        2. User interaction flow\n        3. Data flow diagram\n        4. Component relationship diagram\n        5. Process flow with decision points\n        \n        Provide a detailed textual representation of the flowchart."
      agent := some flowchart_agent
      expected_output := "A comprehensive flowchart description with all workflow components and relationships." }
  let choice_task : Task :=
    { description := "Analyze the project requirements and recommend the best technology stack:\n        \n        Project: " ++ project_description ++ "\n        Requirements: " ++ requirements ++ "\n        \n        Available Options:\n        1. Streamlit (for data-focused, rapid prototyping)\n        2. Flask with HTML/CSS (for full-stack web applications)\n        3. Pure HTML/CSS/JavaScript (for frontend-only solutions)\n        \n        Provide:\n        1. Recommended technology choice with reasoning\n        2. Pros and cons of the chosen technology\n        3. Alternative options if applicable\n        4. Required dependencies and setup"
      agent := some choice_provider_agent
      expected_output := "Technology recommendation with detailed justification and setup requirements." }
  let architecture_task : Task :=
    { description := "Design comprehensive system architecture based on the chosen technology:\n        \n        Project: " ++ project_description ++ "\n        Technology Choice: [From previous task]\n        \n        Create:\n        1. Detailed file structure\n        2. Component architecture\n        3. Database design (if needed)\n        4. API endpoints (if applicable)\n        5. Security considerations\n        6. Deployment strategy\n        7. Configuration requirements"
      agent := some architecture_agent
      expected_output := "Complete system architecture with file structure, components, and technical specifications." }
  let code_generation_task : Task :=
    { description := "Generate complete, functional code based on the architecture:\n        \n        Project: " ++ project_description ++ "\n        Architecture: [From previous task]\n        \n        Generate:\n        1. All necessary code files\n        2. Configuration files\n        3. Requirements/dependencies\n        4. Database schemas (if needed)\n        5. API implementations\n        6. Frontend components\n        7. Main application logic\n        \n        Ensure code is clean, well-commented, and follows best practices."
      agent := some code_generator_agent
      expected_output := "Complete codebase with all necessary files and implementations." }
  let design_enhancement_task : Task :=
    { description := "Enhance the generated code with modern design and animations:\n        \n        Add:\n        1. Modern, responsive UI design\n        2. CSS animations and transitions\n        3. Interactive elements\n        4. Loading states and progress indicators\n        5. Error handling with user-friendly messages\n        6. Mobile-responsive design\n        7. Accessibility features\n        8. Performance optimizations\n        \n        Focus on creating an engaging, professional user experience."
      agent := some design_enhancer_agent
      expected_output := "Enhanced code with modern UI/UX, animations, and interactive features." }
  let error_fixing_task : Task :=
    { description := "Review and fix all errors in the code:\n        \n        Check for:\n        1. Syntax errors\n        2. Logic errors\n        3. Import/dependency issues\n        4. Configuration problems\n        5. Security vulnerabilities\n        6. Performance issues\n        7. Compatibility problems\n        8. Code optimization opportunities\n        \n        Provide clean, error-free, optimized code."
      agent := some error_fixer_agent
      expected_output := "Clean, error-free, and optimized code with all issues resolved." }
  let testing_task : Task :=
    { description := "Test the code comprehensively:\n        \n        Perform:\n        1. Unit testing\n        2. Integration testing\n        3. User interface testing\n        4. Performance testing\n        5. Error handling testing\n        6. Edge case testing\n        7. Cross-browser/platform testing\n        8. Security testing\n        \n        Provide test results and ensure everything works correctly."
      agent := some testing_agent
      expected_output := "Comprehensive test results confirming error-free execution and proper functionality." }
  let delivery_task : Task :=
    { description := "Package and present the final code solution:\n        \n        Provide:\n        1. Complete, organized codebase\n        2. Detailed README with setup instructions\n        3. Architecture documentation\n        4. API documentation (if applicable)\n        5. User guide\n        6. Deployment instructions\n        7. Troubleshooting guide\n        8. Future enhancement suggestions\n        \n        Present everything in a professional, easy-to-understand format."
      agent := some delivery_agent
      expected_output := "Complete, well-documented code solution ready for deployment and use." }
  { agents := [some flowchart_agent, some choice_provider_agent, some architecture_agent,
               some code_generator_agent, some design_enhancer_agent, some error_fixer_agent,
               some testing_agent, some delivery_agent]
    tasks := [flowchart_task, choice_task, architecture_task,
              code_generation_task, design_enhancement_task, error_fixing_task,
              testing_task, delivery_task]
    process := .sequential
    verbose := true }

/-- Oracle for the external collaborators of `generate_code`:
`crew_raises` models whether the CrewAI `Task`/`Crew` constructors inside
`create_code_generation_crew` raise (carrying `str(e)`), and `kickoff` models
`crew.kickoff()` — either the final pipeline output as a string, or the
`str(e)` of the exception it raises. -/
structure ExecEnvA where
  crew_raises : Option String
  kickoff : Crew → Except String String

/-- Trace of one `generate_code` request: whether stage/crew construction was
attempted, whether the executor (`kickoff`, the only model-calling step) was
invoked, and the HTTP response. -/
structure TraceA where
  construction_attempted : Bool
  kickoff_called : Bool
  response : Resp

/-- app.py lines 316-319: the body of the catch-all failure response. -/
def failBodyA (e : String) : JVal :=
  .obj [("success", .b false), ("error", .s ("Failed to generate code: " ++ e))]

/-- app.py lines 289-310: the success response body, with the statistics
computed exactly as in the source (`len(str(result).split()) if result else 0`
and `str(result).count('\n') if result else 0`). -/
def successBodyA (project_description requirements result : String) : JVal :=
  .obj [
    ("success", .b true),
    ("generated_code", .s result),
    ("project_description", .s project_description),
    ("requirements", .s requirements),
    ("stats", .obj [
      ("agents_used", .n 8),
      ("processing_phases", .arr [
        .s "Flowchart Generation",
        .s "Technology Selection",
        .s "Architecture Design",
        .s "Code Generation",
        .s "Design Enhancement",
        .s "Error Fixing",
        .s "Testing",
        .s "Final Delivery"]),
      ("word_count", .n (if result ≠ "" then (pySplit result).length else 0)),
      ("lines_of_code", .n (if result ≠ "" then pyCountChar result '\n' else 0)),
      ("processing_time", .s "45-120 seconds")])]

/-- app.py lines 270-319, `POST /generate_code`: validate the primary input,
build the crew, run the executor, and serialize result plus statistics; any
exception is caught and becomes a 500 failure response. -/
def generate_code (data : List (String × String)) (env : ExecEnvA) : TraceA :=
  let project_description := pyGetStr data "project_description"
  let requirements := pyGetStr data "requirements"
  if project_description = "" then
    { construction_attempted := false
      kickoff_called := false
      response := { body := .obj [("error", .s "Project description is required")], status := 400 } }
  else
    match env.crew_raises with
    | some e =>
      { construction_attempted := true
        kickoff_called := false
        response := { body := failBodyA e, status := 500 } }
    | none =>
      let crew := create_code_generation_crew project_description requirements
      match env.kickoff crew with
      | .error e =>
        { construction_attempted := true
          kickoff_called := true
          response := { body := failBodyA e, status := 500 } }
      | .ok result =>
        { construction_attempted := true
          kickoff_called := true
          response := { body := successBodyA project_description requirements result, status := 200 } }

/-- app.py lines 337-339, `GET /health`.  The source handler reads no state at
all; the module globals (credential and executor oracle) are passed explicitly
to make that independence a provable statement. -/
def health (api_key : Option String) (env : ExecEnvA) : Resp :=
  { body := .obj [("status", .s "healthy"), ("service", .s "AI Code Generator")], status := 200 }

end App

namespace AppV2

/-! ### app_v2.py — the news variant

Agent creation with error handling (lines 44-86), the crew builder
(lines 88-128) and the route handlers (lines 134-213). -/

/-- app_v2.py lines 44-83: create the four news agents; on any exception the
function returns `None` four times.  The possibility that the CrewAI `Agent`
constructor raises is the oracle argument `agent_raises`. -/
def create_agents (agent_raises : Option String) :
    Option Agent × Option Agent × Option Agent × Option Agent :=
  match agent_raises with
  | some _ => (none, none, none, none)
  | none =>
    (some { role := "Investigative Journalist"
            goal := "Research topics and gather information"
            backstory := "You research topics thoroughly."
            verbose := false },
     some { role := "News Writer"
            goal := "Write engaging news articles"
            backstory := "You write compelling news articles."
            verbose := false },
     some { role := "Content Editor"
            goal := "Edit articles for clarity"
            backstory := "You edit and improve text."
            verbose := false },
     some { role := "Final Editor"
            goal := "Finalize articles"
            backstory := "You prepare final content."
            verbose := false })

/-- app_v2.py line 86: the first module-level agent global. -/
def journalist_agent (agent_raises : Option String) : Option Agent :=
  (create_agents agent_raises).1

/-- app_v2.py line 86: the second module-level agent global. -/
def news_writer_agent (agent_raises : Option String) : Option Agent :=
  (create_agents agent_raises).2.1

/-- app_v2.py line 86: the third module-level agent global. -/
def sentence_cleaner_agent (agent_raises : Option String) : Option Agent :=
  (create_agents agent_raises).2.2.1

/-- app_v2.py line 86: the fourth module-level agent global. -/
def merger_agent (agent_raises : Option String) : Option Agent :=
  (create_agents agent_raises).2.2.2

/-- app_v2.py lines 88-128: build the four-stage news pipeline for a topic.
The module-level agent globals are passed explicitly; `crew_raises` is the
oracle for an exception inside the function body, which the source catches,
returning `None`. -/
def create_news_crew (topic : String)
    (journalist_agent news_writer_agent sentence_cleaner_agent merger_agent : Option Agent)
    (crew_raises : Option String) : Option Crew :=
  match crew_raises with
  | some _ => none
  | none =>
    let research_task : Task :=
      { description := "Research the topic: " ++ topic ++ ". Provide key facts and information."
        agent := journalist_agent
        expected_output := "Research findings about the topic." }
    let writing_task : Task :=
      { description := "Write a news article about " ++ topic ++ " based on the research."
        agent := news_writer_agent
        expected_output := "A complete news article." }
    let cleaning_task : Task :=
      { description := "Edit the article for grammar and clarity."
        agent := sentence_cleaner_agent
        expected_output := "A polished article." }
    let merger_task : Task :=
      { description := "Finalize the article for publication."
        agent := merger_agent
        expected_output := "Final publication-ready article." }
    some { agents := [journalist_agent, news_writer_agent, sentence_cleaner_agent, merger_agent]
           tasks := [research_task, writing_task, cleaning_task, merger_task]
           process := .sequential
           verbose := false }

/-- Oracle for the external collaborators of `generate_news`: `crew_raises`
models an exception inside `create_news_crew`, and `kickoff` models
`crew.kickoff()`. -/
structure ExecEnvB where
  crew_raises : Option String
  kickoff : Crew → Except String String

/-- Trace of one `generate_news` request: whether `create_news_crew` was
called, whether the executor was invoked, and the HTTP response. -/
structure TraceB where
  crew_create_called : Bool
  kickoff_called : Bool
  response : Resp

/-- app_v2.py lines 176-183: rewrite the caught exception text into a
friendlier message by substring heuristics on the uppercased text. -/
def rewriteErrorMsg (error_msg : String) : String :=
  if pyContainsSub (pyUpper error_msg) "API" then
    "API connection failed. Please check your internet connection and API key."
  else if pyContainsSub (pyUpper error_msg) "MODEL" then
    "Model configuration error. Please try again."
  else
    "An error occurred: " ++ error_msg

/-- app_v2.py lines 134-188, `POST /generate_news`: validate the topic, check
the module-level agents, build the crew, run the executor; an exception during
execution is caught and its text rewritten by `rewriteErrorMsg`. -/
def generate_news (data : List (String × String))
    (journalist_agent news_writer_agent sentence_cleaner_agent merger_agent : Option Agent)
    (env : ExecEnvB) : TraceB :=
  let topic := pyGetStr data "topic"
  if topic = "" then
    { crew_create_called := false
      kickoff_called := false
      response := { body := .obj [("error", .s "Topic is required")], status := 400 } }
  else if ¬ (journalist_agent.isSome && news_writer_agent.isSome &&
             sentence_cleaner_agent.isSome && merger_agent.isSome) then
    { crew_create_called := false
      kickoff_called := false
      response := { body := .obj [("success", .b false),
                      ("error", .s "Agents not properly initialized. Please check your API key and try again.")],
                    status := 500 } }
  else
    match create_news_crew topic journalist_agent news_writer_agent
        sentence_cleaner_agent merger_agent env.crew_raises with
    | none =>
      { crew_create_called := true
        kickoff_called := false
        response := { body := .obj [("success", .b false),
                        ("error", .s "Failed to create crew. Please try again.")],
                      status := 500 } }
    | some crew =>
      match env.kickoff crew with
      | .error e =>
        { crew_create_called := true
          kickoff_called := true
          response := { body := .obj [("success", .b false), ("error", .s (rewriteErrorMsg e))],
                        status := 500 } }
      | .ok result =>
        { crew_create_called := true
          kickoff_called := true
          response := { body := .obj [("success", .b true), ("article", .s result)], status := 200 } }

/-- app_v2.py lines 190-192, `GET /health`.  As in the other variant, the
module globals are passed explicitly to make the independence provable. -/
def health (api_key : Option String) (env : ExecEnvB) : Resp :=
  { body := .obj [("status", .s "healthy")], status := 200 }

/-- app_v2.py lines 194-213, `GET /test_api`: report credential presence and
probe `Agent` construction, always answering through the JSON `status` and
`message` fields (Flask default status 200 on every branch).  `probe_raises`
is the oracle for an exception from the probe construction. -/
def test_api (api_key : Option String) (probe_raises : Option String) : Resp :=
  if ¬ pyTruthy api_key then
    { body := .obj [("status", .s "error"), ("message", .s "API key not found")], status := 200 }
  else
    match probe_raises with
    | some e =>
      { body := .obj [("status", .s "error"), ("message", .s e)], status := 200 }
    | none =>
      { body := .obj [("status", .s "success"), ("message", .s "API is working")], status := 200 }

end AppV2

/-! ### Shared lemmas about the string primitives -/

/-- Every character list is a prefix of itself. -/
theorem isPrefixOfChars_refl (l : List Char) : isPrefixOfChars l l = true := by
  induction l with
  | nil => rfl
  | cons c cs ih => simp [isPrefixOfChars, ih]

/-- A character list occurs inside anything that ends with it. -/
theorem containsSubChars_append (a b : List Char) : containsSubChars (a ++ b) b = true := by
  induction a with
  | nil =>
    cases b with
    | nil => rfl
    | cons c cs => simp [containsSubChars, isPrefixOfChars_refl]
  | cons c cs ih => simp [containsSubChars, ih]

/-- The Python substring test accepts a string inside any string that has it
as a suffix; in particular a prefixed error message still carries the
original text. -/
theorem pyContainsSub_append (p e : String) : pyContainsSub (p ++ e) e = true := by
  unfold pyContainsSub
  rw [String.data_append]
  exact containsSubChars_append p.data e.data

/-- The guard `if result else 0` of the word count is redundant: on the empty
string the split is empty anyway. -/
theorem word_count_ite (r : String) :
    (if r ≠ "" then (pySplit r).length else 0) = (pySplit r).length := by
  by_cases hr : r = ""
  · subst hr; rfl
  · rw [if_pos hr]

/-- The guard `if result else 0` of the line count is redundant: the empty
string has no newline characters. -/
theorem line_count_ite (r : String) :
    (if r ≠ "" then pyCountChar r '\n' else 0) = pyCountChar r '\n' := by
  by_cases hr : r = ""
  · subst hr; rfl
  · rw [if_pos hr]

/-! ### Path lemmas for the request handlers -/

/-- Successful path of `generate_code`: non-empty description, construction
succeeds, executor returns `r`. -/
theorem App.generate_code_ok_eq (data : List (String × String)) (env : App.ExecEnvA) (r : String)
    (hpd : ¬ pyGetStr data "project_description" = "")
    (hc : env.crew_raises = none)
    (hk : env.kickoff (App.create_code_generation_crew (pyGetStr data "project_description")
            (pyGetStr data "requirements")) = Except.ok r) :
    App.generate_code data env =
      { construction_attempted := true, kickoff_called := true,
        response := { body := App.successBodyA (pyGetStr data "project_description")
                        (pyGetStr data "requirements") r, status := 200 } } := by
  unfold App.generate_code
  rw [if_neg hpd, hc]
  simp only [hk]

/-- Validation path of `generate_code`: empty (or missing) description. -/
theorem App.generate_code_empty_eq (data : List (String × String)) (env : App.ExecEnvA)
    (hpd : pyGetStr data "project_description" = "") :
    App.generate_code data env =
      { construction_attempted := false, kickoff_called := false,
        response := { body := .obj [("error", .s "Project description is required")],
                      status := 400 } } := by
  unfold App.generate_code
  rw [if_pos hpd]

/-- Construction-failure path of `generate_code`: the CrewAI constructors
raise with message `e`. -/
theorem App.generate_code_construct_fail_eq (data : List (String × String)) (env : App.ExecEnvA)
    (e : String)
    (hpd : ¬ pyGetStr data "project_description" = "")
    (hc : env.crew_raises = some e) :
    App.generate_code data env =
      { construction_attempted := true, kickoff_called := false,
        response := { body := App.failBodyA e, status := 500 } } := by
  unfold App.generate_code
  rw [if_neg hpd, hc]

/-- Executor-failure path of `generate_code`: `kickoff` raises with message
`e`. -/
theorem App.generate_code_kickoff_fail_eq (data : List (String × String)) (env : App.ExecEnvA)
    (e : String)
    (hpd : ¬ pyGetStr data "project_description" = "")
    (hc : env.crew_raises = none)
    (hk : env.kickoff (App.create_code_generation_crew (pyGetStr data "project_description")
            (pyGetStr data "requirements")) = Except.error e) :
    App.generate_code data env =
      { construction_attempted := true, kickoff_called := true,
        response := { body := App.failBodyA e, status := 500 } } := by
  unfold App.generate_code
  rw [if_neg hpd, hc]
  simp only [hk]

/-- Validation path of `generate_news`: empty (or missing) topic. -/
theorem AppV2.generate_news_empty_eq (data : List (String × String))
    (j n s m : Option Agent) (env : AppV2.ExecEnvB)
    (htopic : pyGetStr data "topic" = "") :
    AppV2.generate_news data j n s m env =
      { crew_create_called := false, kickoff_called := false,
        response := { body := .obj [("error", .s "Topic is required")], status := 400 } } := by
  unfold AppV2.generate_news
  rw [if_pos htopic]

/-- Uninitialized-agents path of `generate_news`: the module-level agent check
fails. -/
theorem AppV2.generate_news_agents_missing_eq (data : List (String × String))
    (j n s m : Option Agent) (env : AppV2.ExecEnvB)
    (htopic : ¬ pyGetStr data "topic" = "")
    (hmiss : (j.isSome && n.isSome && s.isSome && m.isSome) = false) :
    AppV2.generate_news data j n s m env =
      { crew_create_called := false, kickoff_called := false,
        response := { body := .obj [("success", .b false),
                        ("error", .s "Agents not properly initialized. Please check your API key and try again.")],
                      status := 500 } } := by
  unfold AppV2.generate_news
  rw [if_neg htopic, if_pos (by simp [hmiss])]

/-- Crew-construction-failure path of `generate_news`: an exception inside
`create_news_crew` makes it return `None`. -/
theorem AppV2.generate_news_crew_none_eq (data : List (String × String))
    (j n s m : Option Agent) (env : AppV2.ExecEnvB) (e : String)
    (htopic : ¬ pyGetStr data "topic" = "")
    (hall : (j.isSome && n.isSome && s.isSome && m.isSome) = true)
    (hc : env.crew_raises = some e) :
    AppV2.generate_news data j n s m env =
      { crew_create_called := true, kickoff_called := false,
        response := { body := .obj [("success", .b false),
                        ("error", .s "Failed to create crew. Please try again.")],
                      status := 500 } } := by
  unfold AppV2.generate_news
  rw [if_neg htopic, if_neg (not_not_intro hall), hc]
  rfl

/-- Executor-failure path of `generate_news`: the crew is built and `kickoff`
raises with message `e`, which the handler rewrites. -/
theorem AppV2.generate_news_kickoff_fail_eq (data : List (String × String))
    (j n s m : Option Agent) (env : AppV2.ExecEnvB) (e : String) (c : Crew)
    (htopic : ¬ pyGetStr data "topic" = "")
    (hall : (j.isSome && n.isSome && s.isSome && m.isSome) = true)
    (hc : env.crew_raises = none)
    (hcrew : AppV2.create_news_crew (pyGetStr data "topic") j n s m none = some c)
    (hk : env.kickoff c = Except.error e) :
    AppV2.generate_news data j n s m env =
      { crew_create_called := true, kickoff_called := true,
        response := { body := .obj [("success", .b false),
                        ("error", .s (AppV2.rewriteErrorMsg e))],
                      status := 500 } } := by
  unfold AppV2.generate_news
  rw [if_neg htopic, if_neg (not_not_intro hall), hc, hcrew]
  simp only [hk]

/-! ### Claim theorems -/

/-- C2: for every request whose primary input (project_description in variant
A, topic in variant B) is empty or missing, the handler returns HTTP 400 and
no stage or crew construction is ever attempted for that request (and hence
no executor call either). -/
theorem empty_primary_input_rejected (dataA dataB : List (String × String))
    (envA : App.ExecEnvA) (j n s m : Option Agent) (envB : AppV2.ExecEnvB)
    (hA : pyGetStr dataA "project_description" = "")
    (hB : pyGetStr dataB "topic" = "") :
    ((App.generate_code dataA envA).response.status = 400 ∧
     (App.generate_code dataA envA).construction_attempted = false ∧
     (App.generate_code dataA envA).kickoff_called = false) ∧
    ((AppV2.generate_news dataB j n s m envB).response.status = 400 ∧
     (AppV2.generate_news dataB j n s m envB).crew_create_called = false ∧
     (AppV2.generate_news dataB j n s m envB).kickoff_called = false) := by
  rw [App.generate_code_empty_eq dataA envA hA,
      AppV2.generate_news_empty_eq dataB j n s m envB hB]
  exact ⟨⟨rfl, rfl, rfl⟩, ⟨rfl, rfl, rfl⟩⟩

/-- Witness for `empty_primary_input_rejected`: a variant-A request carrying
only a requirements field, and a variant-B request with an empty topic. -/
theorem empty_primary_input_rejected_witness :
    pyGetStr [("requirements", "needs a database")] "project_description" = "" ∧
    pyGetStr [("topic", "")] "topic" = "" ∧
    (App.generate_code [("requirements", "needs a database")]
       { crew_raises := none, kickoff := fun _ => Except.ok "out" }).response.status = 400 ∧
    (AppV2.generate_news [("topic", "")] (AppV2.journalist_agent none)
       (AppV2.news_writer_agent none) (AppV2.sentence_cleaner_agent none)
       (AppV2.merger_agent none)
       { crew_raises := none, kickoff := fun _ => Except.ok "out" }).response.status = 400 := by
  have h := empty_primary_input_rejected [("requirements", "needs a database")] [("topic", "")]
    { crew_raises := none, kickoff := fun _ => Except.ok "out" }
    (AppV2.journalist_agent none) (AppV2.news_writer_agent none)
    (AppV2.sentence_cleaner_agent none) (AppV2.merger_agent none)
    { crew_raises := none, kickoff := fun _ => Except.ok "out" } rfl rfl
  exact ⟨rfl, rfl, h.1.1, h.2.1⟩

/-- C6: for every non-empty primary input, the pipeline builder produces a
pipeline with exactly 8 stages in the code-generation variant and exactly 4
stages in the news variant, and the stage order is the same fixed sequence on
every call with the same input (the builders are pure, and the bound agent
sequence is a constant independent of the input). -/
theorem pipeline_stage_counts_and_order (pd reqs topic : String) (j n s m : Option Agent)
    (hpd : ¬ pd = "") (htopic : ¬ topic = "") :
    (App.create_code_generation_crew pd reqs).tasks.length = 8 ∧
    ((App.create_code_generation_crew pd reqs).tasks.map (fun t => t.agent)) =
      [some App.flowchart_agent, some App.choice_provider_agent, some App.architecture_agent,
       some App.code_generator_agent, some App.design_enhancer_agent, some App.error_fixer_agent,
       some App.testing_agent, some App.delivery_agent] ∧
    ((AppV2.create_news_crew topic j n s m none).map (fun c => c.tasks.length)) = some 4 ∧
    ((AppV2.create_news_crew topic j n s m none).map
       (fun c => c.tasks.map (fun t => t.agent))) = some [j, n, s, m] :=
  ⟨rfl, rfl, rfl, rfl⟩

/-- Witness for `pipeline_stage_counts_and_order` at concrete non-empty
inputs. -/
theorem pipeline_stage_counts_and_order_witness :
    (¬ ("Build a todo app" : String) = "") ∧ (¬ ("quantum computing" : String) = "") ∧
    (App.create_code_generation_crew "Build a todo app" "").tasks.length = 8 ∧
    ((AppV2.create_news_crew "quantum computing" (AppV2.journalist_agent none)
       (AppV2.news_writer_agent none) (AppV2.sentence_cleaner_agent none)
       (AppV2.merger_agent none) none).map (fun c => c.tasks.length)) = some 4 := by
  have h := pipeline_stage_counts_and_order "Build a todo app" "" "quantum computing"
    (AppV2.journalist_agent none) (AppV2.news_writer_agent none)
    (AppV2.sentence_cleaner_agent none) (AppV2.merger_agent none) (by decide) (by decide)
  exact ⟨by decide, by decide, h.1, h.2.2.1⟩

/-- C7: every GET /health request returns a success response in both variants,
independent of the credential state and of any executor state: the response is
status 200 with body field status = healthy, and is the same for any two
module states. -/
theorem health_always_success (kA kA2 kB kB2 : Option String)
    (envA envA2 : App.ExecEnvA) (envB envB2 : AppV2.ExecEnvB) :
    (App.health kA envA).status = 200 ∧
    (App.health kA envA).body.get "status" = some (.s "healthy") ∧
    (AppV2.health kB envB).status = 200 ∧
    (AppV2.health kB envB).body.get "status" = some (.s "healthy") ∧
    App.health kA envA = App.health kA2 envA2 ∧
    AppV2.health kB envB = AppV2.health kB2 envB2 :=
  ⟨rfl, rfl, rfl, rfl, rfl, rfl⟩

/-- C9: in the news variant, if any of the four module-level agents is `None`,
every /generate_news request with a non-empty topic returns HTTP 500 with the
static initialization message, no crew is created, and no executor call is
attempted. -/
theorem uninitialized_agents_rejected (data : List (String × String))
    (j n s m : Option Agent) (env : AppV2.ExecEnvB)
    (htopic : ¬ pyGetStr data "topic" = "")
    (hmiss : j = none ∨ n = none ∨ s = none ∨ m = none) :
    (AppV2.generate_news data j n s m env).response.status = 500 ∧
    (AppV2.generate_news data j n s m env).response.body.get "error" =
      some (.s "Agents not properly initialized. Please check your API key and try again.") ∧
    (AppV2.generate_news data j n s m env).crew_create_called = false ∧
    (AppV2.generate_news data j n s m env).kickoff_called = false := by
  have hf : (j.isSome && n.isSome && s.isSome && m.isSome) = false := by
    rcases hmiss with h | h | h | h <;> subst h <;> simp
  rw [AppV2.generate_news_agents_missing_eq data j n s m env htopic hf]
  exact ⟨rfl, rfl, rfl, rfl⟩

/-- Witness for `uninitialized_agents_rejected` with the first agent missing
(as after a startup failure of `create_agents`). -/
theorem uninitialized_agents_rejected_witness :
    (¬ pyGetStr [("topic", "ai ethics")] "topic" = "") ∧
    (AppV2.generate_news [("topic", "ai ethics")] none (AppV2.news_writer_agent none)
      (AppV2.sentence_cleaner_agent none) (AppV2.merger_agent none)
      { crew_raises := none, kickoff := fun _ => Except.ok "out" }).response.status = 500 ∧
    (AppV2.generate_news [("topic", "ai ethics")] none (AppV2.news_writer_agent none)
      (AppV2.sentence_cleaner_agent none) (AppV2.merger_agent none)
      { crew_raises := none, kickoff := fun _ => Except.ok "out" }).kickoff_called = false := by
  have h := uninitialized_agents_rejected [("topic", "ai ethics")] none
    (AppV2.news_writer_agent none) (AppV2.sentence_cleaner_agent none) (AppV2.merger_agent none)
    { crew_raises := none, kickoff := fun _ => Except.ok "out" } (by decide) (Or.inl rfl)
  exact ⟨by decide, h.1, h.2.2.2⟩

/-- C10: every GET /test_api request returns HTTP status 200, even when the
credential is absent or the probe agent construction raises; the outcome is
reported only through the JSON status and message fields. -/
theorem test_api_always_200 (api_key probe_raises : Option String) :
    (AppV2.test_api api_key probe_raises).status = 200 ∧
    ∃ st msg, (AppV2.test_api api_key probe_raises).body =
      .obj [("status", .s st), ("message", .s msg)] := by
  unfold AppV2.test_api
  by_cases h : pyTruthy api_key = true
  · rw [if_neg (not_not_intro h)]
    cases probe_raises with
    | none => exact ⟨rfl, "success", "API is working", rfl⟩
    | some e => exact ⟨rfl, "error", e, rfl⟩
  · rw [if_pos h]
    exact ⟨rfl, "error", "API key not found", rfl⟩

/-- C1 (counterexample): for the execution result "a b\nc" the success
response reports word_count 3 — Python `"a b\nc".split()` is `["a","b","c"]`
because the newline is also a split point — refuting the claimed word count 2
at this explicit input (the claimed line count 1 does hold). -/
theorem word_count_example_is_three :
    (((App.generate_code [("project_description", "demo")]
        { crew_raises := none, kickoff := fun _ => Except.ok "a b\nc" }).response.body.get
        "stats").bind (fun s => s.get "word_count") = some (.n 3)) ∧
    ¬ (((App.generate_code [("project_description", "demo")]
        { crew_raises := none, kickoff := fun _ => Except.ok "a b\nc" }).response.body.get
        "stats").bind (fun s => s.get "word_count") = some (.n 2)) ∧
    (((App.generate_code [("project_description", "demo")]
        { crew_raises := none, kickoff := fun _ => Except.ok "a b\nc" }).response.body.get
        "stats").bind (fun s => s.get "lines_of_code") = some (.n 1)) := by
  refine ⟨rfl, ?_, rfl⟩
  intro h
  have h2 : some (JVal.n 3) = some (JVal.n 2) := Eq.trans (by rfl) h
  simp at h2

/-- C1 (amended): for every execution result string r returned by the
executor, word_count in the /generate_code success response equals
`len(r.split())` and lines_of_code equals the number of newline characters in
r; in particular, for the result "a b\nc" the word count is 3 and the line
count is 1. -/
theorem generate_code_stats_formula (data : List (String × String)) (env : App.ExecEnvA)
    (r : String)
    (hpd : ¬ pyGetStr data "project_description" = "")
    (hc : env.crew_raises = none)
    (hk : env.kickoff (App.create_code_generation_crew (pyGetStr data "project_description")
            (pyGetStr data "requirements")) = Except.ok r) :
    (((App.generate_code data env).response.body.get "stats").bind
       (fun s => s.get "word_count") = some (.n ((pySplit r).length))) ∧
    (((App.generate_code data env).response.body.get "stats").bind
       (fun s => s.get "lines_of_code") = some (.n (pyCountChar r '\n'))) := by
  rw [App.generate_code_ok_eq data env r hpd hc hk]
  constructor
  · show some (JVal.n (if r ≠ "" then (pySplit r).length else 0)) = _
    rw [word_count_ite]
  · show some (JVal.n (if r ≠ "" then pyCountChar r '\n' else 0)) = _
    rw [line_count_ite]

/-- Witness for `generate_code_stats_formula` at the example result of the spec,
"a b\nc": the formula gives word count 3 and line count 1. -/
theorem generate_code_stats_formula_witness :
    (¬ pyGetStr [("project_description", "demo")] "project_description" = "") ∧
    (pySplit "a b\nc").length = 3 ∧ pyCountChar "a b\nc" '\n' = 1 ∧
    (((App.generate_code [("project_description", "demo")]
        { crew_raises := none, kickoff := fun _ => Except.ok "a b\nc" }).response.body.get
        "stats").bind (fun s => s.get "word_count") = some (.n 3)) ∧
    (((App.generate_code [("project_description", "demo")]
        { crew_raises := none, kickoff := fun _ => Except.ok "a b\nc" }).response.body.get
        "stats").bind (fun s => s.get "lines_of_code") = some (.n 1)) := by
  have h := generate_code_stats_formula [("project_description", "demo")]
    { crew_raises := none, kickoff := fun _ => Except.ok "a b\nc" } "a b\nc"
    (by decide) rfl rfl
  exact ⟨by decide, by decide, by decide, h.1, h.2⟩

/-- C3 (counterexample): in the news variant a crew-construction failure with
underlying message "boom" is answered with the static text "Failed to create
crew. Please try again.", whose error field does not carry the underlying
message, refuting the claim for variant B. -/
theorem news_construction_error_static_message :
    (AppV2.generate_news [("topic", "climate")] (AppV2.journalist_agent none)
        (AppV2.news_writer_agent none) (AppV2.sentence_cleaner_agent none)
        (AppV2.merger_agent none)
        { crew_raises := some "boom", kickoff := fun _ => Except.ok "" }).response.status = 500 ∧
    ¬ (∃ msg, (AppV2.generate_news [("topic", "climate")] (AppV2.journalist_agent none)
        (AppV2.news_writer_agent none) (AppV2.sentence_cleaner_agent none)
        (AppV2.merger_agent none)
        { crew_raises := some "boom", kickoff := fun _ => Except.ok "" }).response.body.get
        "error" = some (.s msg) ∧ pyContainsSub msg "boom" = true) := by
  refine ⟨rfl, ?_⟩
  rintro ⟨msg, hmsg, hsub⟩
  have h2 : some (JVal.s "Failed to create crew. Please try again.") = some (JVal.s msg) :=
    Eq.trans (by rfl) hmsg
  have h3 : msg = "Failed to create crew. Please try again." := by
    injection h2 with h4
    injection h4 with h5
    exact h5.symm
  rw [h3] at hsub
  exact absurd hsub (by decide)

/-- C3 (amended): whenever agent/crew/pipeline object creation fails for a
request with a valid primary input, the handler returns HTTP 500 and the
request is aborted before any model call; in the code-generation variant the
error field carries the underlying failure message (prefixed with "Failed to
generate code: "), while in the news variant the error field is the static
text "Failed to create crew. Please try again.", not the underlying
message. -/
theorem construction_failure_responses
    (dataA : List (String × String)) (envA : App.ExecEnvA) (eA : String)
    (dataB : List (String × String)) (j n s m : Option Agent) (envB : AppV2.ExecEnvB)
    (eB : String)
    (hpd : ¬ pyGetStr dataA "project_description" = "")
    (hcA : envA.crew_raises = some eA)
    (htopic : ¬ pyGetStr dataB "topic" = "")
    (hall : (j.isSome && n.isSome && s.isSome && m.isSome) = true)
    (hcB : envB.crew_raises = some eB) :
    ((App.generate_code dataA envA).response.status = 500 ∧
     (App.generate_code dataA envA).kickoff_called = false ∧
     (App.generate_code dataA envA).response.body.get "error" =
       some (.s ("Failed to generate code: " ++ eA)) ∧
     pyContainsSub ("Failed to generate code: " ++ eA) eA = true) ∧
    ((AppV2.generate_news dataB j n s m envB).response.status = 500 ∧
     (AppV2.generate_news dataB j n s m envB).kickoff_called = false ∧
     (AppV2.generate_news dataB j n s m envB).response.body.get "error" =
       some (.s "Failed to create crew. Please try again.")) := by
  rw [App.generate_code_construct_fail_eq dataA envA eA hpd hcA,
      AppV2.generate_news_crew_none_eq dataB j n s m envB eB htopic hall hcB]
  exact ⟨⟨rfl, rfl, rfl, pyContainsSub_append "Failed to generate code: " eA⟩, ⟨rfl, rfl, rfl⟩⟩

/-- Witness for `construction_failure_responses`: variant A constructors raise
with "bad credential", variant B crew creation raises with "boom". -/
theorem construction_failure_responses_witness :
    (¬ pyGetStr [("project_description", "demo")] "project_description" = "") ∧
    (¬ pyGetStr [("topic", "climate")] "topic" = "") ∧
    (App.generate_code [("project_description", "demo")]
       { crew_raises := some "bad credential",
         kickoff := fun _ => Except.ok "out" }).response.body.get "error" =
      some (.s "Failed to generate code: bad credential") ∧
    (AppV2.generate_news [("topic", "climate")] (AppV2.journalist_agent none)
       (AppV2.news_writer_agent none) (AppV2.sentence_cleaner_agent none)
       (AppV2.merger_agent none)
       { crew_raises := some "boom", kickoff := fun _ => Except.ok "out" }).response.body.get
      "error" = some (.s "Failed to create crew. Please try again.") := by
  have h := construction_failure_responses [("project_description", "demo")]
    { crew_raises := some "bad credential", kickoff := fun _ => Except.ok "out" }
    "bad credential" [("topic", "climate")] (AppV2.journalist_agent none)
    (AppV2.news_writer_agent none) (AppV2.sentence_cleaner_agent none) (AppV2.merger_agent none)
    { crew_raises := some "boom", kickoff := fun _ => Except.ok "out" } "boom"
    (by decide) rfl (by decide) rfl rfl
  exact ⟨by decide, by decide, h.1.2.2.1, h.2.2.2⟩

/-- C4: for every request in which the executor raises, the handler returns
exactly one failure response with success false and a string error message,
and the response contains no result field (generated_code in variant A,
article in variant B) and no partial-stage output. -/
theorem executor_failure_single_response
    (dataA : List (String × String)) (envA : App.ExecEnvA) (eA : String)
    (dataB : List (String × String)) (j n s m : Option Agent) (envB : AppV2.ExecEnvB)
    (eB : String) (c : Crew)
    (hpd : ¬ pyGetStr dataA "project_description" = "")
    (hcA : envA.crew_raises = none)
    (hkA : envA.kickoff (App.create_code_generation_crew (pyGetStr dataA "project_description")
            (pyGetStr dataA "requirements")) = Except.error eA)
    (htopic : ¬ pyGetStr dataB "topic" = "")
    (hall : (j.isSome && n.isSome && s.isSome && m.isSome) = true)
    (hcB : envB.crew_raises = none)
    (hcrew : AppV2.create_news_crew (pyGetStr dataB "topic") j n s m none = some c)
    (hkB : envB.kickoff c = Except.error eB) :
    ((App.generate_code dataA envA).response.status = 500 ∧
     (App.generate_code dataA envA).response.body.get "success" = some (.b false) ∧
     (App.generate_code dataA envA).response.body.get "error" =
       some (.s ("Failed to generate code: " ++ eA)) ∧
     (App.generate_code dataA envA).response.body.get "generated_code" = none) ∧
    ((AppV2.generate_news dataB j n s m envB).response.status = 500 ∧
     (AppV2.generate_news dataB j n s m envB).response.body.get "success" = some (.b false) ∧
     (AppV2.generate_news dataB j n s m envB).response.body.get "error" =
       some (.s (AppV2.rewriteErrorMsg eB)) ∧
     (AppV2.generate_news dataB j n s m envB).response.body.get "article" = none) := by
  rw [App.generate_code_kickoff_fail_eq dataA envA eA hpd hcA hkA,
      AppV2.generate_news_kickoff_fail_eq dataB j n s m envB eB c htopic hall hcB hcrew hkB]
  exact ⟨⟨rfl, rfl, rfl, rfl⟩, ⟨rfl, rfl, rfl, rfl⟩⟩

/-- Witness for `executor_failure_single_response`: both executors raise on
concrete valid requests. -/
theorem executor_failure_single_response_witness :
    (¬ pyGetStr [("project_description", "demo")] "project_description" = "") ∧
    (¬ pyGetStr [("topic", "climate")] "topic" = "") ∧
    (App.generate_code [("project_description", "demo")]
       { crew_raises := none,
         kickoff := fun _ => Except.error "timeout" }).response.body.get "generated_code" =
      none ∧
    (AppV2.generate_news [("topic", "climate")] (AppV2.journalist_agent none)
       (AppV2.news_writer_agent none) (AppV2.sentence_cleaner_agent none)
       (AppV2.merger_agent none)
       { crew_raises := none,
         kickoff := fun _ => Except.error "timeout" }).response.body.get "article" = none := by
  have h := executor_failure_single_response [("project_description", "demo")]
    { crew_raises := none, kickoff := fun _ => Except.error "timeout" } "timeout"
    [("topic", "climate")] (AppV2.journalist_agent none) (AppV2.news_writer_agent none)
    (AppV2.sentence_cleaner_agent none) (AppV2.merger_agent none)
    { crew_raises := none, kickoff := fun _ => Except.error "timeout" } "timeout"
    ((AppV2.create_news_crew "climate" (AppV2.journalist_agent none)
       (AppV2.news_writer_agent none) (AppV2.sentence_cleaner_agent none)
       (AppV2.merger_agent none) none).getD
      { agents := [], tasks := [], process := .sequential, verbose := false })
    (by decide) rfl rfl (by decide) rfl rfl rfl rfl
  exact ⟨by decide, by decide, h.1.2.2.2, h.2.2.2.2⟩

/-- C5: in the news variant, for every exception text e caught during
/generate_news execution: if e uppercased contains "API" the returned error
is the connectivity message; otherwise if it contains "MODEL" the returned
error is the configuration message; otherwise the original text is returned
prefixed as a generic error. -/
theorem news_error_rewriting (data : List (String × String)) (j n s m : Option Agent)
    (env : AppV2.ExecEnvB) (e : String) (c : Crew)
    (htopic : ¬ pyGetStr data "topic" = "")
    (hall : (j.isSome && n.isSome && s.isSome && m.isSome) = true)
    (hc : env.crew_raises = none)
    (hcrew : AppV2.create_news_crew (pyGetStr data "topic") j n s m none = some c)
    (hk : env.kickoff c = Except.error e) :
    (pyContainsSub (pyUpper e) "API" = true →
      (AppV2.generate_news data j n s m env).response.body.get "error" =
        some (.s "API connection failed. Please check your internet connection and API key.")) ∧
    (pyContainsSub (pyUpper e) "API" = false → pyContainsSub (pyUpper e) "MODEL" = true →
      (AppV2.generate_news data j n s m env).response.body.get "error" =
        some (.s "Model configuration error. Please try again.")) ∧
    (pyContainsSub (pyUpper e) "API" = false → pyContainsSub (pyUpper e) "MODEL" = false →
      (AppV2.generate_news data j n s m env).response.body.get "error" =
        some (.s ("An error occurred: " ++ e))) := by
  rw [AppV2.generate_news_kickoff_fail_eq data j n s m env e c htopic hall hc hcrew hk]
  refine ⟨fun h1 => ?_, fun h1 h2 => ?_, fun h1 h2 => ?_⟩
  · show some (JVal.s (AppV2.rewriteErrorMsg e)) = _
    unfold AppV2.rewriteErrorMsg
    rw [if_pos h1]
  · show some (JVal.s (AppV2.rewriteErrorMsg e)) = _
    unfold AppV2.rewriteErrorMsg
    rw [if_neg (by simp [h1]), if_pos h2]
  · show some (JVal.s (AppV2.rewriteErrorMsg e)) = _
    unfold AppV2.rewriteErrorMsg
    rw [if_neg (by simp [h1]), if_neg (by simp [h2])]

/-- Witness for `news_error_rewriting`: the exception text "no API key"
uppercases to a string containing "API" and is rewritten to the connectivity
message. -/
theorem news_error_rewriting_witness :
    (¬ pyGetStr [("topic", "climate")] "topic" = "") ∧
    pyContainsSub (pyUpper "no API key") "API" = true ∧
    (AppV2.generate_news [("topic", "climate")] (AppV2.journalist_agent none)
       (AppV2.news_writer_agent none) (AppV2.sentence_cleaner_agent none)
       (AppV2.merger_agent none)
       { crew_raises := none,
         kickoff := fun _ => Except.error "no API key" }).response.body.get "error" =
      some (.s "API connection failed. Please check your internet connection and API key.") := by
  have h := news_error_rewriting [("topic", "climate")] (AppV2.journalist_agent none)
    (AppV2.news_writer_agent none) (AppV2.sentence_cleaner_agent none) (AppV2.merger_agent none)
    { crew_raises := none, kickoff := fun _ => Except.error "no API key" } "no API key"
    ((AppV2.create_news_crew "climate" (AppV2.journalist_agent none)
       (AppV2.news_writer_agent none) (AppV2.sentence_cleaner_agent none)
       (AppV2.merger_agent none) none).getD
      { agents := [], tasks := [], process := .sequential, verbose := false })
    (by decide) rfl rfl rfl rfl
  exact ⟨by decide, by decide, h.1 (by decide)⟩

/-- C8: every successful /generate_code response echoes the request fields
project_description and requirements fields unchanged, and its stats always
contain agents_used = 8 and the same fixed 8-element processing_phases list,
independent of the input. -/
theorem success_response_echo_and_static_stats (data : List (String × String))
    (env : App.ExecEnvA) (r : String)
    (hpd : ¬ pyGetStr data "project_description" = "")
    (hc : env.crew_raises = none)
    (hk : env.kickoff (App.create_code_generation_crew (pyGetStr data "project_description")
            (pyGetStr data "requirements")) = Except.ok r) :
    (App.generate_code data env).response.status = 200 ∧
    (App.generate_code data env).response.body.get "project_description" =
      some (.s (pyGetStr data "project_description")) ∧
    (App.generate_code data env).response.body.get "requirements" =
      some (.s (pyGetStr data "requirements")) ∧
    ((App.generate_code data env).response.body.get "stats").bind
      (fun s => s.get "agents_used") = some (.n 8) ∧
    ((App.generate_code data env).response.body.get "stats").bind
      (fun s => s.get "processing_phases") =
      some (.arr [.s "Flowchart Generation", .s "Technology Selection",
        .s "Architecture Design", .s "Code Generation", .s "Design Enhancement",
        .s "Error Fixing", .s "Testing", .s "Final Delivery"]) := by
  rw [App.generate_code_ok_eq data env r hpd hc hk]
  exact ⟨rfl, rfl, rfl, rfl, rfl⟩

/-- Witness for `success_response_echo_and_static_stats` at a concrete
request. -/
theorem success_response_echo_and_static_stats_witness :
    (¬ pyGetStr [("project_description", "a blog"), ("requirements", "dark mode")]
       "project_description" = "") ∧
    (App.generate_code [("project_description", "a blog"), ("requirements", "dark mode")]
       { crew_raises := none,
         kickoff := fun _ => Except.ok "done" }).response.body.get "project_description" =
      some (.s "a blog") ∧
    (App.generate_code [("project_description", "a blog"), ("requirements", "dark mode")]
       { crew_raises := none,
         kickoff := fun _ => Except.ok "done" }).response.body.get "requirements" =
      some (.s "dark mode") ∧
    ((App.generate_code [("project_description", "a blog"), ("requirements", "dark mode")]
       { crew_raises := none,
         kickoff := fun _ => Except.ok "done" }).response.body.get "stats").bind
      (fun s => s.get "agents_used") = some (.n 8) := by
  have h := success_response_echo_and_static_stats
    [("project_description", "a blog"), ("requirements", "dark mode")]
    { crew_raises := none, kickoff := fun _ => Except.ok "done" } "done"
    (by decide) rfl rfl
  exact ⟨by decide, h.2.1, h.2.2.1, h.2.2.2.1⟩

end ACG
